import Mathlib

/-!
The HTTP gateway of background-checks, `api/api.go`

A shallow embedding of the gateway and the properties of its routing,
its workflow identifiers, its token handling and its status codes.
-/

namespace BackgroundChecks

/-! ## Constants -/

/-- The constant `DefaultEndpoint`. -/
def DefaultEndpoint : String := "localhost:8081"

/-- The constant `TaskQueue`. -/
def TaskQueue : String := "background-checks-main"

/-! ## Identifier scheme (`api.go` lines 37-47) -/

/-- The part of Go's `fmt.Sprintf` the gateway uses, on the characters of the
format: the verb `%s` prints the next operand (a string) as it is, `%%` prints
a percent sign, every other character is copied.  A `%s` without operand
prints `%!s(MISSING)`; operands left over at the end are reported by
`%!(EXTRA string=...)` as the library does. -/
def sprintfChars : List Char → List String → List Char
  | '%' :: 's' :: fmt, a :: args => a.data ++ sprintfChars fmt args
  | '%' :: 's' :: fmt, [] => "%!s(MISSING)".data ++ sprintfChars fmt []
  | '%' :: '%' :: fmt, args => '%' :: sprintfChars fmt args
  | c :: fmt, args => c :: sprintfChars fmt args
  | [], [] => []
  | [], a :: args =>
    "%!(EXTRA ".data ++ (String.intercalate ", " ((a :: args).map fun x => "string=" ++ x)).data
      ++ [')']

/-- Go's `fmt.Sprintf` restricted to string operands. -/
def Sprintf (format : String) (args : List String) : String :=
  String.mk (sprintfChars format.data args)

/-- The function `BackgroundCheckWorkflowID`. -/
def BackgroundCheckWorkflowID (email : String) : String :=
  Sprintf "BackgroundCheck-%s" [email]

/-- The function `CandidateWorkflowID`. -/
def CandidateWorkflowID (email : String) : String :=
  Sprintf "Candidate-%s" [email]

/-- The function `ResearcherWorkflowID`. -/
def ResearcherWorkflowID (email : String) : String :=
  Sprintf "Researcher-%s" [email]

/-! ## Standard base64 (Go's `encoding/base64`, `StdEncoding`)

The gateway calls the library's `base64.StdEncoding.DecodeString`.  The model
below follows the library: the RFC 4648 alphabet, `=` padding, carriage
returns and line feeds skipped, non-strict trailing bits.  A token is a list
of bytes, each byte a natural number below 256; the path variable is a string
whose characters are the bytes of the Go string (a character outside ASCII
stands for bytes above 127, none of which is in the alphabet). -/

/-- The alphabet `encodeStd` of the library. -/
def encodeStd : String :=
  "ABCDEFGHIJKLMNOPQRSTUVWXYZabcdefghijklmnopqrstuvwxyz0123456789+/"

/-- The character `enc.encode[n]`. -/
def encodeChar (n : Nat) : Char := encodeStd.data.getD n 'A'

/-- The table `enc.decodeMap`: the index of a character in the alphabet, and
`0xff` for every character that is not in it. -/
def decodeMap (c : Char) : Nat :=
  if encodeStd.data.indexOf c < 64 then encodeStd.data.indexOf c else 255

/-- The library's `Encode`: three bytes give four characters, a rest of one
or two bytes is padded with `=`.  `val` is `b0<<16 | b1<<8 | b2`, a sum
because the operands are bytes. -/
def encodeBytes : List Nat → List Char
  | b0 :: b1 :: b2 :: rest =>
    let val := b0 * 65536 + b1 * 256 + b2
    encodeChar (val / 262144 % 64) :: encodeChar (val / 4096 % 64)
      :: encodeChar (val / 64 % 64) :: encodeChar (val % 64) :: encodeBytes rest
  | [b0, b1] =>
    let val := b0 * 65536 + b1 * 256
    [encodeChar (val / 262144 % 64), encodeChar (val / 4096 % 64),
      encodeChar (val / 64 % 64), '=']
  | [b0] =>
    let val := b0 * 65536
    [encodeChar (val / 262144 % 64), encodeChar (val / 4096 % 64), '=', '=']
  | [] => []

/-- The library's `StdEncoding.EncodeToString`. -/
def EncodeToString (src : List Nat) : String := String.mk (encodeBytes src)

/-- The loops of `decodeQuantum` that skip over newlines. -/
def skipNewlines : List Char → List Char
  | c :: cs => if c = '\n' ∨ c = '\r' then skipNewlines cs else c :: cs
  | [] => []

/-- The end of `decodeQuantum`: `dbuf` holds the `dlen` six-bit values read,
`val` is `dbuf[0]<<18 | dbuf[1]<<12 | dbuf[2]<<6 | dbuf[3]`, and `dlen - 1`
bytes of it are written. -/
def quantumBytes (dbuf : List Nat) : List Nat :=
  let val := dbuf.getD 0 0 * 262144 + dbuf.getD 1 0 * 4096 + dbuf.getD 2 0 * 64 + dbuf.getD 3 0
  [val / 65536 % 256, val / 256 % 256, val % 256].take (dbuf.length - 1)

/-- The library's `Decode`, quantum by quantum: `src` is what is left of the
input, `dbuf` the six-bit values of the quantum being read, `dst` the bytes
written so far.  `none` is a `CorruptInputError`. -/
def decodeFrom : List Char → List Nat → List Nat → Option (List Nat)
  | [], dbuf, dst => if dbuf = [] then some dst else none
  | c :: src, dbuf, dst =>
    if decodeMap c ≠ 255 then
      if dbuf.length = 3 then decodeFrom src [] (dst ++ quantumBytes (dbuf ++ [decodeMap c]))
      else decodeFrom src (dbuf ++ [decodeMap c]) dst
    else if c = '\n' ∨ c = '\r' then decodeFrom src dbuf dst
    else if c ≠ '=' then none
    else
      match dbuf.length with
      | 2 =>
        match skipNewlines src with
        | '=' :: rest => if skipNewlines rest = [] then some (dst ++ quantumBytes dbuf) else none
        | _ => none
      | 3 => if skipNewlines src = [] then some (dst ++ quantumBytes dbuf) else none
      | _ => none

/-- The library's `StdEncoding.DecodeString`; `none` when it returns an error. -/
def DecodeString (s : String) : Option (List Nat) := decodeFrom s.data [] []

/-! ## `net/http`: the response writer -/

/-- What a handler has written: the header map, the status code once the
header is written, and the body. -/
structure ResponseWriter where
  /-- The header map. -/
  header : List (String × String) := []
  /-- The status code, once `WriteHeader` was called (by the handler or by the
  first `Write`). -/
  code : Option Nat := none
  /-- The bytes written. -/
  body : String := ""

/-- The call `w.Header().Set(key, value)`. -/
def ResponseWriter.SetHeader (w : ResponseWriter) (key value : String) : ResponseWriter :=
  { w with header := (key, value) :: w.header.filter fun p => p.1 != key }

/-- The call `w.WriteHeader(code)`; a second call changes nothing. -/
def ResponseWriter.WriteHeader (w : ResponseWriter) (code : Nat) : ResponseWriter :=
  match w.code with
  | some _ => w
  | none => { w with code := some code }

/-- The call `w.Write(data)`: the first write sends status 200 when no header
was written before. -/
def ResponseWriter.Write (w : ResponseWriter) (data : String) : ResponseWriter :=
  let w1 := w.WriteHeader 200
  { w1 with body := w1.body ++ data }

/-- The library's `http.Error(w, error, code)`. -/
def ResponseWriter.Error (w : ResponseWriter) (error : String) (code : Nat) : ResponseWriter :=
  (((w.SetHeader "Content-Type" "text/plain; charset=utf-8").SetHeader
    "X-Content-Type-Options" "nosniff").WriteHeader code).Write (error ++ "\n")

/-- The status the client receives: the code written, and 200 when the
handler returned without writing one. -/
def ResponseWriter.statusCode (w : ResponseWriter) : Nat := w.code.getD 200

/-- The library's `http.StatusText` on the codes the gateway produces. -/
def StatusText (code : Nat) : String :=
  match code with
  | 201 => "Created"
  | 400 => "Bad Request"
  | 404 => "Not Found"
  | 405 => "Method Not Allowed"
  | 500 => "Internal Server Error"
  | _ => ""

/-- The request as the handlers read it: method, `URL.Path`, the body, and
the path variables `mux.Vars(r)`. -/
structure Request where
  /-- The method. -/
  Method : String
  /-- The path. -/
  Path : String
  /-- The body. -/
  Body : String := ""
  /-- The variables bound by the route that matched. -/
  Vars : List (String × String) := []

/-- The expression `mux.Vars(r)[name]`: the empty string for a name that is
not bound. -/
def Request.Var (r : Request) (name : String) : String :=
  (r.Vars.lookup name).getD ""

/-! ## Domain types and the workflow runtime -/

/-- Modelled from the spec: the kinds of error of the runtime adapter
(§4.1 `ConflictError`, `NotFoundError`, `UnknownTokenError`,
`TransientError`), and `malformed` for a body or value that does not decode.
The gateway only sees a Go `error`.  `conflict` is the client's
`WorkflowExecutionAlreadyStarted`, which `ExecuteWorkflow` returns only to a
caller that asks for it in the start options. -/
inductive ErrorKind
  | conflict
  | notFound
  | unknownToken
  | transient
  | malformed
  deriving DecidableEq

/-- A Go `error`: its kind and the text of `err.Error()`. -/
structure GoError where
  /-- The kind. -/
  kind : ErrorKind
  /-- The text. -/
  msg : String
  deriving DecidableEq

/-- Modelled from the spec: `types.BackgroundCheckInput` (§3), declared
outside `api.go`. -/
structure BackgroundCheckInput where
  /-- The candidate's email. -/
  Email : String
  /-- The tier. -/
  Tier : String
  /-- The package. -/
  Package : String
  deriving DecidableEq

/-- Modelled from the spec: `types.ConsentResult` (§3), declared outside
`api.go`. -/
structure ConsentResult where
  /-- The decision. -/
  Consent : Bool
  deriving DecidableEq

/-- The types of the repository that `api.go` uses and does not declare. -/
structure Model where
  /-- The type `types.BackgroundCheckStatus`. -/
  BackgroundCheckStatus : Type
  /-- The type `types.CandidateTodo`. -/
  CandidateTodo : Type
  /-- The type `types.ResearcherTodo`. -/
  ResearcherTodo : Type
  /-- The type `types.SearchResult`. -/
  SearchResult : Type
  /-- The type of what `SearchResult.Result()` returns. -/
  SearchPayload : Type
  /-- The type `converter.EncodedValue`. -/
  EncodedValue : Type

/-- The fields of `client.StartWorkflowOptions` that decide what
`ExecuteWorkflow` returns; a field left out of the literal has its zero
value. -/
structure StartWorkflowOptions where
  /-- The workflow ID. -/
  ID : String
  /-- The task queue. -/
  TaskQueue : String := ""
  /-- Whether a start on the ID of a running workflow is an error. -/
  WorkflowExecutionErrorWhenAlreadyStarted : Bool := false
  deriving DecidableEq

/-- The answer of the Temporal server to a start request: the workflow was
started, or a workflow with this ID is already running, or the request
failed for another reason. -/
inductive StartReply
  | started
  | alreadyStarted
  | failed (msg : String)
  deriving DecidableEq

/-- The `result interface{}` handed to `completeActivity`. -/
inductive ActivityResult (M : Model)
  | consent (c : ConsentResult)
  | search (p : M.SearchPayload)

/-- A call of one of the four adapter functions, with its arguments. -/
inductive Call (M : Model)
  | executeWorkflow (options : StartWorkflowOptions) (input : BackgroundCheckInput)
  | cancelWorkflow (wid : String)
  | completeActivity (token : List Nat) (result : ActivityResult M) (activityErr : Option GoError)
  | queryWorkflow (wid : String) (queryType : String)

/-- Everything outside `api.go` that a handler depends on: the JSON codec on
the repository's types, the query names, and the Temporal client. -/
structure Env (M : Model) where
  /-- The call `json.NewDecoder(r.Body).Decode` into a `BackgroundCheckInput`. -/
  decodeInput : String → Except GoError BackgroundCheckInput
  /-- The call `json.NewDecoder(r.Body).Decode` into a `ConsentResult`. -/
  decodeConsent : String → Except GoError ConsentResult
  /-- The call `json.NewDecoder(r.Body).Decode` into a `SearchResult`. -/
  decodeSearch : String → Except GoError M.SearchResult
  /-- The method `SearchResult.Result()`. -/
  searchPayload : M.SearchResult → M.SearchPayload
  /-- What `json.NewEncoder(w).Encode` writes for a list of inputs. -/
  encodeChecks : List BackgroundCheckInput → String
  /-- What `json.NewEncoder(w).Encode` writes for a status. -/
  encodeStatus : M.BackgroundCheckStatus → String
  /-- What `json.NewEncoder(w).Encode` writes for the candidate's todos. -/
  encodeCandidateTodos : List M.CandidateTodo → String
  /-- What `json.NewEncoder(w).Encode` writes for the researcher's todos. -/
  encodeResearcherTodos : List M.ResearcherTodo → String
  /-- The constant `queries.BackgroundCheckStatus`. -/
  queryBackgroundCheckStatus : String
  /-- The constant `queries.CandidateTodosList`. -/
  queryCandidateTodosList : String
  /-- The constant `queries.ResearcherTodosList`. -/
  queryResearcherTodosList : String
  /-- The error of `client.NewClient`, if it fails. -/
  NewClient : Option GoError
  /-- The answer of the server to the start request of `c.ExecuteWorkflow`, by
  workflow ID, task queue and input. -/
  StartWorkflowExecution : String → String → BackgroundCheckInput → StartReply
  /-- The method `c.CancelWorkflow`, by workflow ID. -/
  CancelWorkflow : String → Except GoError Unit
  /-- The method `c.CompleteActivity`. -/
  CompleteActivity : List Nat → ActivityResult M → Option GoError → Except GoError Unit
  /-- The method `c.QueryWorkflow`, by workflow ID and query type. -/
  QueryWorkflow : String → String → Except GoError M.EncodedValue
  /-- The call `v.Get` into a `BackgroundCheckStatus`. -/
  getStatus : M.EncodedValue → Except GoError M.BackgroundCheckStatus
  /-- The call `v.Get` into a list of `CandidateTodo`. -/
  getCandidateTodos : M.EncodedValue → Except GoError (List M.CandidateTodo)
  /-- The call `v.Get` into a list of `ResearcherTodo`. -/
  getResearcherTodos : M.EncodedValue → Except GoError (List M.ResearcherTodo)

/-- The state a handler works on: the response writer and the adapter calls
made so far, in order. -/
structure Exchange (M : Model) where
  /-- The response writer. -/
  w : ResponseWriter := {}
  /-- The adapter calls. -/
  calls : List (Call M) := []

/-- The status the client receives. -/
def Exchange.statusCode {M : Model} (x : Exchange M) : Nat := x.w.statusCode

/-! ## The adapter (`api.go` lines 49-100) -/

/-- The error `WorkflowExecutionAlreadyStarted` of the client. -/
def alreadyStartedError : GoError :=
  { kind := ErrorKind.conflict, msg := "workflow execution already started" }

/-- The method `c.ExecuteWorkflow` of the Temporal client.  When the server
answers that a workflow with this ID is already running, the client returns
the running execution and no error, unless the options set
`WorkflowExecutionErrorWhenAlreadyStarted`. -/
def Env.ExecuteWorkflow {M : Model} (env : Env M) (options : StartWorkflowOptions)
    (input : BackgroundCheckInput) : Except GoError Unit :=
  match env.StartWorkflowExecution options.ID options.TaskQueue input with
  | StartReply.started => Except.ok ()
  | StartReply.alreadyStarted =>
    if options.WorkflowExecutionErrorWhenAlreadyStarted then Except.error alreadyStartedError
    else Except.ok ()
  | StartReply.failed msg => Except.error { kind := ErrorKind.transient, msg := msg }

/-- The function `executeWorkflow`: the task queue of the options is set to
`TaskQueue`, the other options are those of the caller. -/
def executeWorkflow {M : Model} (env : Env M) (options : StartWorkflowOptions)
    (input : BackgroundCheckInput) (x : Exchange M) : Except GoError Unit × Exchange M :=
  let x1 := { x with calls := x.calls ++ [Call.executeWorkflow options input] }
  match env.NewClient with
  | some err => (.error err, x1)
  | none => (env.ExecuteWorkflow { options with TaskQueue := TaskQueue } input, x1)

/-- The function `cancelWorkflow`. -/
def cancelWorkflow {M : Model} (env : Env M) (wid : String) (x : Exchange M) :
    Except GoError Unit × Exchange M :=
  let x1 := { x with calls := x.calls ++ [Call.cancelWorkflow wid] }
  match env.NewClient with
  | some err => (.error err, x1)
  | none => (env.CancelWorkflow wid, x1)

/-- The function `completeActivity`. -/
def completeActivity {M : Model} (env : Env M) (token : List Nat) (result : ActivityResult M)
    (activityErr : Option GoError) (x : Exchange M) : Except GoError Unit × Exchange M :=
  let x1 := { x with calls := x.calls ++ [Call.completeActivity token result activityErr] }
  match env.NewClient with
  | some err => (.error err, x1)
  | none => (env.CompleteActivity token result activityErr, x1)

/-- The function `queryWorkflow`. -/
def queryWorkflow {M : Model} (env : Env M) (wid : String) (queryType : String)
    (x : Exchange M) : Except GoError M.EncodedValue × Exchange M :=
  let x1 := { x with calls := x.calls ++ [Call.queryWorkflow wid queryType] }
  match env.NewClient with
  | some err => (.error err, x1)
  | none => (env.QueryWorkflow wid queryType, x1)

/-! ## The handlers (`api.go` lines 102-285) -/

/-- The call `http.Error(w, ...)` on the writer of an exchange. -/
def Exchange.Error {M : Model} (x : Exchange M) (error : String) (code : Nat) : Exchange M :=
  { x with w := x.w.Error error code }

/-- The call `w.Header().Set(...)` on the writer of an exchange. -/
def Exchange.SetHeader {M : Model} (x : Exchange M) (key value : String) : Exchange M :=
  { x with w := x.w.SetHeader key value }

/-- The call `w.WriteHeader(...)` on the writer of an exchange. -/
def Exchange.WriteHeader {M : Model} (x : Exchange M) (code : Nat) : Exchange M :=
  { x with w := x.w.WriteHeader code }

/-- The call `json.NewEncoder(w).Encode(...)` on the writer of an exchange,
given the bytes the encoder produces. -/
def Exchange.Write {M : Model} (x : Exchange M) (data : String) : Exchange M :=
  { x with w := x.w.Write data }

/-- The function `handleCheckList`. -/
def handleCheckList {M : Model} (env : Env M) (_r : Request) (x : Exchange M) : Exchange M :=
  x.Write (env.encodeChecks [])

/-- The function `handleCheckCreate`: the start options hold the workflow ID
and nothing else. -/
def handleCheckCreate {M : Model} (env : Env M) (r : Request) (x : Exchange M) : Exchange M :=
  match env.decodeInput r.Body with
  | .error err => x.Error err.msg 400
  | .ok input =>
    match executeWorkflow env { ID := BackgroundCheckWorkflowID input.Email } input x with
    | (.error _, x1) => x1.Error (StatusText 500) 500
    | (.ok _, x1) => x1.WriteHeader 201

/-- The function `handleCheckStatus`. -/
def handleCheckStatus {M : Model} (env : Env M) (r : Request) (x : Exchange M) : Exchange M :=
  let email := r.Var "email"
  match queryWorkflow env (BackgroundCheckWorkflowID email) env.queryBackgroundCheckStatus x with
  | (.error err, x1) => x1.Error err.msg 500
  | (.ok v, x1) =>
    match env.getStatus v with
    | .error err => x1.Error err.msg 500
    | .ok result =>
      (x1.SetHeader "Content-Type" "application/json").Write (env.encodeStatus result)

/-- The function `handleCheckReport`: its body is empty. -/
def handleCheckReport {M : Model} (_env : Env M) (_r : Request) (x : Exchange M) : Exchange M :=
  x

/-- The function `handleCheckConsent`.  The text written for a token that does
not decode stands for the message of the library's `CorruptInputError`. -/
def handleCheckConsent {M : Model} (env : Env M) (r : Request) (x : Exchange M) : Exchange M :=
  match DecodeString (r.Var "token") with
  | none => x.Error "illegal base64 data" 500
  | some token =>
    match env.decodeConsent r.Body with
    | .error err => x.Error err.msg 400
    | .ok result =>
      match completeActivity env token (ActivityResult.consent result) none x with
      | (.error err, x1) => x1.Error err.msg 500
      | (.ok _, x1) => x1

/-- The function `handleCheckDecline`. -/
def handleCheckDecline {M : Model} (env : Env M) (r : Request) (x : Exchange M) : Exchange M :=
  match DecodeString (r.Var "token") with
  | none => x.Error "illegal base64 data" 400
  | some token =>
    match completeActivity env token (ActivityResult.consent { Consent := false }) none x with
    | (.error err, x1) => x1.Error err.msg 500
    | (.ok _, x1) => x1

/-- The function `handleCheckCancel`: it reads the variable `id`. -/
def handleCheckCancel {M : Model} (env : Env M) (r : Request) (x : Exchange M) : Exchange M :=
  let id := r.Var "id"
  match cancelWorkflow env id x with
  | (.error err, x1) => x1.Error err.msg 500
  | (.ok _, x1) => x1

/-- The function `handleCandidateTodoList`. -/
def handleCandidateTodoList {M : Model} (env : Env M) (r : Request) (x : Exchange M) :
    Exchange M :=
  let email := r.Var "email"
  match queryWorkflow env (CandidateWorkflowID email) env.queryCandidateTodosList x with
  | (.error err, x1) => x1.Error err.msg 500
  | (.ok v, x1) =>
    match env.getCandidateTodos v with
    | .error err => x1.Error err.msg 500
    | .ok result =>
      (x1.SetHeader "Content-Type" "application/json").Write (env.encodeCandidateTodos result)

/-- The function `handleResearcherTodoList`. -/
def handleResearcherTodoList {M : Model} (env : Env M) (r : Request) (x : Exchange M) :
    Exchange M :=
  let email := r.Var "email"
  match queryWorkflow env (ResearcherWorkflowID email) env.queryResearcherTodosList x with
  | (.error err, x1) => x1.Error err.msg 500
  | (.ok v, x1) =>
    match env.getResearcherTodos v with
    | .error err => x1.Error err.msg 500
    | .ok result =>
      (x1.SetHeader "Content-Type" "application/json").Write (env.encodeResearcherTodos result)

/-- The function `handleSaveSearchResult`. -/
def handleSaveSearchResult {M : Model} (env : Env M) (r : Request) (x : Exchange M) :
    Exchange M :=
  match DecodeString (r.Var "token") with
  | none => x.Error "illegal base64 data" 500
  | some token =>
    match env.decodeSearch r.Body with
    | .error err => x.Error err.msg 400
    | .ok result =>
      match completeActivity env token (ActivityResult.search (env.searchPayload result)) none x with
      | (.error err, x1) => x1.Error err.msg 500
      | (.ok _, x1) => x1

/-! ## The router (`api.go` lines 287-302, on `gorilla/mux`) -/

/-- The handler functions of `api.go`. -/
inductive Handler
  | handleCheckList
  | handleCheckCreate
  | handleCheckStatus
  | handleCheckCancel
  | handleCheckReport
  | handleCheckConsent
  | handleCheckDecline
  | handleSaveSearchResult
  | handleCandidateTodoList
  | handleResearcherTodoList
  deriving DecidableEq

/-- A piece of a path template: a character to be found as it is, or a
variable `{name}`. -/
inductive Part
  | lit (c : Char)
  | var (name : String)
  deriving DecidableEq

/-- The pieces of a path template; the second argument holds the name of the
variable being read, after its opening brace. -/
def parseTemplate : List Char → Option (List Char) → List Part
  | [], _ => []
  | '{' :: cs, none => parseTemplate cs (some [])
  | '}' :: cs, some name => Part.var (String.mk name) :: parseTemplate cs none
  | c :: cs, some name => parseTemplate cs (some (name ++ [c]))
  | c :: cs, none => Part.lit c :: parseTemplate cs none

/-- The match of a whole path against a template, as the anchored regular
expression mux builds from it: a variable stands for `[^/]+`, one or more
characters other than the slash.  Every variable of the templates of `Router`
is followed by a slash or ends the template, where `[^/]+` takes the whole
run of characters up to the next slash.  The result binds the variables. -/
def matchParts : List Part → List Char → Option (List (String × String))
  | [], [] => some []
  | [], _ :: _ => none
  | Part.lit _ :: _, [] => none
  | Part.lit c :: ps, d :: path => if c = d then matchParts ps path else none
  | Part.var name :: ps, path =>
    if path.takeWhile (fun c => c != '/') = [] then none
    else
      (matchParts ps (path.dropWhile fun c => c != '/')).map fun vars =>
        (name, String.mk (path.takeWhile fun c => c != '/')) :: vars

/-- A route: the path template and handler of `HandleFunc`, the methods of
`Methods` (none when it is not called), the name of `Name`. -/
structure Route where
  /-- The template. -/
  tpl : String
  /-- The handler. -/
  handler : Handler
  /-- The methods accepted, when the route restricts them. -/
  methods : Option (List String) := none
  /-- The name. -/
  name : String

/-- The function `Router`: the routes in the order of their registration. -/
def Router : List Route :=
  [ { tpl := "/checks", handler := Handler.handleCheckList, name := "checks_list" },
    { tpl := "/checks", handler := Handler.handleCheckCreate, methods := some ["POST"],
      name := "checks_create" },
    { tpl := "/checks/{email}", handler := Handler.handleCheckStatus, name := "check" },
    { tpl := "/checks/{email}/cancel", handler := Handler.handleCheckCancel,
      methods := some ["POST"], name := "check_cancel" },
    { tpl := "/checks/{email}/report", handler := Handler.handleCheckReport,
      name := "check_report" },
    { tpl := "/checks/{token}/consent", handler := Handler.handleCheckConsent,
      methods := some ["POST"], name := "check_consent" },
    { tpl := "/checks/{token}/decline", handler := Handler.handleCheckDecline,
      methods := some ["POST"], name := "check_decline" },
    { tpl := "/checks/{token}/search", handler := Handler.handleSaveSearchResult,
      methods := some ["POST"], name := "research_save" },
    { tpl := "/todos/candidate/{email}", handler := Handler.handleCandidateTodoList,
      name := "todos_candidate" },
    { tpl := "/todos/researcher/{email}", handler := Handler.handleResearcherTodoList,
      name := "todos_researcher" } ]

/-- The method matcher of a route. -/
def Route.methodOk (rt : Route) (method : String) : Bool :=
  match rt.methods with
  | none => true
  | some ms => ms.contains method

/-- The result of `Router.Match`: the route that matched with the variables
it binds, or a method mismatch (405), or nothing (404). -/
inductive RouteMatch
  | matched (route : Route) (vars : List (String × String))
  | methodMismatch
  | notFound

/-- The method `Router.Match`: the routes are tried in order and the first
whose path and method both match is taken; `seen` tells that an earlier route
matched the path and refused the method. -/
def matchRoutes : List Route → Request → Bool → RouteMatch
  | [], _, seen => if seen then RouteMatch.methodMismatch else RouteMatch.notFound
  | rt :: rest, req, seen =>
    match matchParts (parseTemplate rt.tpl.data none) req.Path.data with
    | none => matchRoutes rest req seen
    | some vars =>
      if rt.methodOk req.Method then RouteMatch.matched rt vars
      else matchRoutes rest req true

/-- The handler function behind each value of `Handler`. -/
def Handler.run {M : Model} (h : Handler) : Env M → Request → Exchange M → Exchange M :=
  match h with
  | Handler.handleCheckList => BackgroundChecks.handleCheckList
  | Handler.handleCheckCreate => BackgroundChecks.handleCheckCreate
  | Handler.handleCheckStatus => BackgroundChecks.handleCheckStatus
  | Handler.handleCheckCancel => BackgroundChecks.handleCheckCancel
  | Handler.handleCheckReport => BackgroundChecks.handleCheckReport
  | Handler.handleCheckConsent => BackgroundChecks.handleCheckConsent
  | Handler.handleCheckDecline => BackgroundChecks.handleCheckDecline
  | Handler.handleSaveSearchResult => BackgroundChecks.handleSaveSearchResult
  | Handler.handleCandidateTodoList => BackgroundChecks.handleCandidateTodoList
  | Handler.handleResearcherTodoList => BackgroundChecks.handleResearcherTodoList

/-- The handler `Router.Match` selects for a request, if any. -/
def selectedHandler (routes : List Route) (req : Request) : Option Handler :=
  match matchRoutes routes req false with
  | RouteMatch.matched rt _ => some rt.handler
  | _ => none

/-- The name of the route `Router.Match` selects for a request, if any. -/
def selectedRoute (routes : List Route) (req : Request) : Option String :=
  match matchRoutes routes req false with
  | RouteMatch.matched rt _ => some rt.name
  | _ => none

/-- The elements of a path, between its slashes; `cur` is the element being
read. -/
def splitSlash : List Char → List Char → List (List Char)
  | [], cur => [cur]
  | c :: cs, cur => if c = '/' then cur :: splitSlash cs [] else splitSlash cs (cur ++ [c])

/-- The elements the library's `path.Clean` keeps of a rooted path: empty
elements and `.` are dropped, `..` drops the element kept before it, if any. -/
def cleanElements : List (List Char) → List (List Char) → List (List Char)
  | [], kept => kept
  | e :: es, kept =>
    if e = [] ∨ e = ['.'] then cleanElements es kept
    else if e = ['.', '.'] then cleanElements es kept.dropLast
    else cleanElements es (kept ++ [e])

/-- The rooted path made of the given elements. -/
def joinRooted : List (List Char) → List Char
  | [] => []
  | e :: es => '/' :: e ++ joinRooted es

/-- The library's `path.Clean` on a rooted path. -/
def pathClean (p : List Char) : List Char :=
  match cleanElements (splitSlash p []) [] with
  | [] => ['/']
  | e :: es => joinRooted (e :: es)

/-- The function `cleanPath` of mux: the path is rooted and cleaned, and keeps
its trailing slash. -/
def cleanPath (p : String) : String :=
  if p.data = [] then "/"
  else
    let q := if p.data.head? = some '/' then p.data else '/' :: p.data
    let np := pathClean q
    String.mk (if q.getLast? = some '/' ∧ np ≠ ['/'] then np ++ ['/'] else np)

/-- The method `Router.ServeHTTP`: a request whose path is not in canonical
form is answered by a redirect (301) to the canonical path and no handler
runs; otherwise the handler of the matching route runs on the request with
the variables bound. -/
def ServeHTTP {M : Model} (env : Env M) (routes : List Route) (req : Request) : Exchange M :=
  if cleanPath req.Path ≠ req.Path then
    (Exchange.SetHeader {} "Location" (cleanPath req.Path)).WriteHeader 301
  else
    match matchRoutes routes req false with
    | RouteMatch.matched rt vars => rt.handler.run env { req with Vars := vars } {}
    | RouteMatch.methodMismatch => Exchange.Error {} "" 405
    | RouteMatch.notFound => Exchange.Error {} "404 page not found" 404

/-! ## A concrete environment -/

/-- A model in which every type declared outside `api.go` is a string. -/
@[reducible] def textModel : Model :=
  { BackgroundCheckStatus := String, CandidateTodo := String, ResearcherTodo := String,
    SearchResult := String, SearchPayload := String, EncodedValue := String }

/-- The outcome of a client method that fails with `failure`, when there is
one, and returns `value` otherwise. -/
def outcome {α : Type} (failure : Option GoError) (value : α) : Except GoError α :=
  match failure with
  | some err => Except.error err
  | none => Except.ok value

/-- The error of a JSON decoder on a body it does not accept. -/
def jsonError : GoError := { kind := ErrorKind.malformed, msg := "unexpected end of JSON input" }

/-- A body holding a `BackgroundCheckInput` for the candidate `a@x`. -/
def inputBody : String :=
  "\x7b\"email\":\"a@x\",\"tier\":\"standard\",\"package\":\"base\"\x7d"

/-- A body holding the `ConsentResult` of a candidate who consents. -/
def consentBody : String := "\x7b\"consent\":true\x7d"

/-- A body holding the `ConsentResult` of a candidate who declines. -/
def declineBody : String := "\x7b\"consent\":false\x7d"

/-- An environment over `textModel`: the codec accepts the three bodies above
and no other, every value encodes to itself, and every method of the client
fails with `failure` when there is one and succeeds otherwise. -/
def sampleEnv (failure : Option GoError) : Env textModel :=
  { decodeInput := fun body =>
      if body = inputBody then Except.ok { Email := "a@x", Tier := "standard", Package := "base" }
      else Except.error jsonError
    decodeConsent := fun body =>
      if body = consentBody then Except.ok { Consent := true }
      else if body = declineBody then Except.ok { Consent := false }
      else Except.error jsonError
    decodeSearch := fun body => if body = "" then Except.error jsonError else Except.ok body
    searchPayload := fun sr => sr
    encodeChecks := fun _ => "[]\n"
    encodeStatus := fun st => st ++ "\n"
    encodeCandidateTodos := fun ts => String.join ts ++ "\n"
    encodeResearcherTodos := fun ts => String.join ts ++ "\n"
    queryBackgroundCheckStatus := "background-check-status"
    queryCandidateTodosList := "candidate-todos-list"
    queryResearcherTodosList := "researcher-todos-list"
    NewClient := none
    StartWorkflowExecution := fun _ _ _ =>
      match failure with
      | some err => StartReply.failed err.msg
      | none => StartReply.started
    CancelWorkflow := fun _ => outcome failure ()
    CompleteActivity := fun _ _ _ => outcome failure ()
    QueryWorkflow := fun wid _ => outcome failure ("status of " ++ wid)
    getStatus := fun v => Except.ok v
    getCandidateTodos := fun v => Except.ok [v]
    getResearcherTodos := fun v => Except.ok [v] }

/-- The environment `sampleEnv none` with a server on which the workflows of
the given IDs are running: a start request on one of them is answered
`alreadyStarted`. -/
def runningEnv (running : List String) : Env textModel :=
  { sampleEnv none with
    StartWorkflowExecution := fun id _ _ =>
      if running.contains id then StartReply.alreadyStarted else StartReply.started }

/-- A request for a path that is not in canonical form. -/
def dotCancelRequest : Request := { Method := "POST", Path := "/checks/./cancel" }

/-- The adapter error for a workflow that does not exist. -/
def notFoundError : GoError := { kind := ErrorKind.notFound, msg := "workflow not found" }

/-- The adapter error for a token that is unknown or already consumed. -/
def unknownTokenError : GoError :=
  { kind := ErrorKind.unknownToken, msg := "activity task not found" }

/-- A request that creates the case of `a@x`, before routing. -/
def createRequest : Request := { Method := "POST", Path := "/checks", Body := inputBody }

/-- A request for the status of the case of `a@x`, before routing. -/
def statusRequest : Request := { Method := "GET", Path := "/checks/a@x" }

/-- A request that cancels the case of `a@x`, before routing. -/
def cancelRequest : Request := { Method := "POST", Path := "/checks/a@x/cancel" }

/-- A consent request as the handler receives it: the token is the encoding
`AQIDBA==` of the bytes 1, 2, 3, 4 and the candidate consents. -/
def consentRequest : Request :=
  { Method := "POST", Path := "/checks/AQIDBA==/consent", Body := consentBody,
    Vars := [("token", "AQIDBA==")] }

/-- A consent request whose token `!` is not base64 and whose body declines,
before routing. -/
def badConsentRequest : Request :=
  { Method := "POST", Path := "/checks/!/consent", Body := declineBody }

/-- A decline request whose token `!` is not base64, before routing. -/
def badDeclineRequest : Request :=
  { Method := "POST", Path := "/checks/!/decline", Body := declineBody }

/-- A search request whose token `!` is not base64, before routing. -/
def badSearchRequest : Request :=
  { Method := "POST", Path := "/checks/!/search", Body := "result" }

/-! ## Theorems -/

/-! ### Identifiers -/

theorem backgroundCheckID_data (email : String) :
    (BackgroundCheckWorkflowID email).data = "BackgroundCheck-".data ++ email.data := by
  simp [BackgroundCheckWorkflowID, Sprintf, sprintfChars]

theorem candidateID_data (email : String) :
    (CandidateWorkflowID email).data = "Candidate-".data ++ email.data := by
  simp [CandidateWorkflowID, Sprintf, sprintfChars]

theorem researcherID_data (email : String) :
    (ResearcherWorkflowID email).data = "Researcher-".data ++ email.data := by
  simp [ResearcherWorkflowID, Sprintf, sprintfChars]

/-- C4: for every email, `BackgroundCheckWorkflowID`, `CandidateWorkflowID` and
`ResearcherWorkflowID` return `BackgroundCheck-`, `Candidate-` and
`Researcher-` followed by the email; each is a function of the email alone. -/
theorem workflowID_scheme (email : String) :
    BackgroundCheckWorkflowID email = "BackgroundCheck-" ++ email ∧
    CandidateWorkflowID email = "Candidate-" ++ email ∧
    ResearcherWorkflowID email = "Researcher-" ++ email := by
  refine ⟨?_, ?_, ?_⟩ <;> apply String.ext
  · rw [backgroundCheckID_data, String.data_append]
  · rw [candidateID_data, String.data_append]
  · rw [researcherID_data, String.data_append]

/-- C10: each of the three identifier functions is injective, and no
identifier of one kind equals an identifier of another kind, whatever the
emails. -/
theorem workflowIDs_never_collide :
    Function.Injective BackgroundCheckWorkflowID ∧
    Function.Injective CandidateWorkflowID ∧
    Function.Injective ResearcherWorkflowID ∧
    ∀ e1 e2 e3 : String,
      BackgroundCheckWorkflowID e1 ≠ CandidateWorkflowID e2 ∧
      BackgroundCheckWorkflowID e1 ≠ ResearcherWorkflowID e3 ∧
      CandidateWorkflowID e2 ≠ ResearcherWorkflowID e3 := by
  refine ⟨?_, ?_, ?_, ?_⟩
  · intro a b h
    have h2 := congrArg String.data h
    rw [backgroundCheckID_data, backgroundCheckID_data] at h2
    exact String.ext (List.append_cancel_left h2)
  · intro a b h
    have h2 := congrArg String.data h
    rw [candidateID_data, candidateID_data] at h2
    exact String.ext (List.append_cancel_left h2)
  · intro a b h
    have h2 := congrArg String.data h
    rw [researcherID_data, researcherID_data] at h2
    exact String.ext (List.append_cancel_left h2)
  · intro e1 e2 e3
    refine ⟨?_, ?_, ?_⟩ <;> intro h <;> have h2 := congrArg String.data h
    · rw [backgroundCheckID_data, candidateID_data] at h2
      exact absurd (List.cons.inj h2).1 (by decide)
    · rw [backgroundCheckID_data, researcherID_data] at h2
      exact absurd (List.cons.inj h2).1 (by decide)
    · rw [candidateID_data, researcherID_data] at h2
      exact absurd (List.cons.inj h2).1 (by decide)

/-! ### Base64 -/

theorem decodeMap_encodeChar_lt (n : Nat) (h : n < 64) : decodeMap (encodeChar n) = n := by
  interval_cases n <;> rfl

theorem decodeMap_encodeChar (n : Nat) : decodeMap (encodeChar (n % 64)) = n % 64 :=
  decodeMap_encodeChar_lt _ (Nat.mod_lt _ (by decide))

theorem decodeMap_pad : decodeMap '=' = 255 := by rfl

theorem decodeFrom_sextet (n : Nat) (src : List Char) (dbuf dst : List Nat) :
    decodeFrom (encodeChar (n % 64) :: src) dbuf dst =
      if dbuf.length = 3 then decodeFrom src [] (dst ++ quantumBytes (dbuf ++ [n % 64]))
      else decodeFrom src (dbuf ++ [n % 64]) dst := by
  have h : n % 64 < 64 := Nat.mod_lt _ (by decide)
  rw [decodeFrom, decodeMap_encodeChar]
  have h2 : n % 64 ≠ 255 := by omega
  simp [h2]

theorem decodeFrom_pad (src : List Char) (dbuf dst : List Nat) :
    decodeFrom ('=' :: src) dbuf dst =
      match dbuf.length with
      | 2 =>
        match skipNewlines src with
        | '=' :: rest => if skipNewlines rest = [] then some (dst ++ quantumBytes dbuf) else none
        | _ => none
      | 3 => if skipNewlines src = [] then some (dst ++ quantumBytes dbuf) else none
      | _ => none := by
  rw [decodeFrom]
  simp [decodeMap_pad]

theorem quantumBytes_three (b0 b1 b2 : Nat) (h0 : b0 < 256) (h1 : b1 < 256) (h2 : b2 < 256) :
    quantumBytes
        [(b0 * 65536 + b1 * 256 + b2) / 262144 % 64, (b0 * 65536 + b1 * 256 + b2) / 4096 % 64,
          (b0 * 65536 + b1 * 256 + b2) / 64 % 64, (b0 * 65536 + b1 * 256 + b2) % 64]
      = [b0, b1, b2] := by
  simp only [quantumBytes, List.getD_cons_zero, List.getD_cons_succ, List.length_cons,
    List.length_nil, List.take]
  refine congrArg₂ _ (by omega) (congrArg₂ _ (by omega) (congrArg₂ _ (by omega) rfl))

theorem quantumBytes_two (b0 b1 : Nat) (h0 : b0 < 256) (h1 : b1 < 256) :
    quantumBytes
        [(b0 * 65536 + b1 * 256) / 262144 % 64, (b0 * 65536 + b1 * 256) / 4096 % 64,
          (b0 * 65536 + b1 * 256) / 64 % 64]
      = [b0, b1] := by
  simp only [quantumBytes, List.getD_cons_zero, List.getD_cons_succ, List.length_cons,
    List.length_nil, List.take, List.getD_nil]
  refine congrArg₂ _ (by omega) (congrArg₂ _ (by omega) rfl)

theorem quantumBytes_one (b0 : Nat) (h0 : b0 < 256) :
    quantumBytes [b0 * 65536 / 262144 % 64, b0 * 65536 / 4096 % 64] = [b0] := by
  simp only [quantumBytes, List.getD_cons_zero, List.getD_cons_succ, List.length_cons,
    List.length_nil, List.take, List.getD_nil]
  refine congrArg₂ _ (by omega) rfl

theorem decodeFrom_group (b0 b1 b2 : Nat) (h0 : b0 < 256) (h1 : b1 < 256) (h2 : b2 < 256)
    (rest : List Nat) (dst : List Nat) :
    decodeFrom (encodeBytes (b0 :: b1 :: b2 :: rest)) [] dst =
      decodeFrom (encodeBytes rest) [] (dst ++ [b0, b1, b2]) := by
  simp only [encodeBytes, decodeFrom_sextet, List.length_nil, List.nil_append, List.length_cons,
    List.cons_append]
  simp only [Nat.reduceAdd, Nat.reduceEqDiff, if_false, if_true, OfNat.zero_ne_ofNat,
    OfNat.one_ne_ofNat]
  rw [quantumBytes_three b0 b1 b2 h0 h1 h2]

theorem decodeFrom_encodeBytes (T : List Nat) :
    (∀ b ∈ T, b < 256) → ∀ dst, decodeFrom (encodeBytes T) [] dst = some (dst ++ T) := by
  induction T using encodeBytes.induct with
  | case1 b0 b1 b2 rest ih =>
    intro hT dst
    have h0 : b0 < 256 := hT b0 (by simp)
    have h1 : b1 < 256 := hT b1 (by simp)
    have h2 : b2 < 256 := hT b2 (by simp)
    rw [decodeFrom_group b0 b1 b2 h0 h1 h2, ih (fun b hb => hT b (by simp [hb]))]
    simp
  | case2 b0 b1 =>
    intro hT dst
    have h0 : b0 < 256 := hT b0 (by simp)
    have h1 : b1 < 256 := hT b1 (by simp)
    simp only [encodeBytes, decodeFrom_sextet, decodeFrom_pad, List.length_nil, List.nil_append,
      List.length_cons, List.cons_append, skipNewlines]
    simp only [Nat.reduceAdd, Nat.reduceEqDiff, if_false, if_true, OfNat.zero_ne_ofNat,
      OfNat.one_ne_ofNat]
    rw [quantumBytes_two b0 b1 h0 h1]
  | case3 b0 =>
    intro hT dst
    have h0 : b0 < 256 := hT b0 (by simp)
    simp only [encodeBytes, decodeFrom_sextet, decodeFrom_pad, List.length_nil, List.nil_append,
      List.length_cons, List.cons_append, skipNewlines]
    simp only [Nat.reduceAdd, Nat.reduceEqDiff, if_false, if_true, OfNat.zero_ne_ofNat,
      OfNat.one_ne_ofNat]
    rw [quantumBytes_one b0 h0]
    simp [skipNewlines]
  | case4 =>
    intro _ dst
    simp [encodeBytes, decodeFrom]

/-- Decoding the standard padded encoding of a byte sequence gives the
sequence back. -/
theorem DecodeString_EncodeToString (T : List Nat) (hT : ∀ b ∈ T, b < 256) :
    DecodeString (EncodeToString T) = some T := by
  unfold DecodeString EncodeToString
  rw [decodeFrom_encodeBytes T hT]
  simp

/-! ### Routing -/

theorem match_post_checks (body : String) (vars : List (String × String)) :
    matchRoutes Router { Method := "POST", Path := "/checks", Body := body, Vars := vars } false
      = RouteMatch.matched
          { tpl := "/checks", handler := Handler.handleCheckList, name := "checks_list" } [] := by
  rfl

theorem takeWhile_segment (seg rest : List Char) (h : '/' ∉ seg) :
    (seg ++ '/' :: rest).takeWhile (fun c => c != '/') = seg := by
  induction seg with
  | nil => simp
  | cons c cs ih =>
    have hb : (c != '/') = true := by
      simp only [bne_iff_ne]
      exact fun e => h (by simp [e])
    have hcs : '/' ∉ cs := fun e => h (by simp [e])
    rw [List.cons_append, List.takeWhile_cons, hb, if_pos rfl, ih hcs]

theorem dropWhile_segment (seg rest : List Char) (h : '/' ∉ seg) :
    (seg ++ '/' :: rest).dropWhile (fun c => c != '/') = '/' :: rest := by
  induction seg with
  | nil => simp
  | cons c cs ih =>
    have hb : (c != '/') = true := by
      simp only [bne_iff_ne]
      exact fun e => h (by simp [e])
    have hcs : '/' ∉ cs := fun e => h (by simp [e])
    rw [List.cons_append, List.dropWhile_cons, hb, if_pos rfl, ih hcs]

theorem matchParts_var (name : String) (ps : List Part) (seg rest : List Char)
    (hne : seg ≠ []) (hslash : '/' ∉ seg) :
    matchParts (Part.var name :: ps) (seg ++ '/' :: rest)
      = (matchParts ps ('/' :: rest)).map fun vars => (name, String.mk seg) :: vars := by
  rw [matchParts, takeWhile_segment _ _ hslash, dropWhile_segment _ _ hslash]
  simp [hne]

theorem matchParts_lit (c : Char) (ps : List Part) (path : List Char) :
    matchParts (Part.lit c :: ps) (c :: path) = matchParts ps path := by
  simp only [matchParts, if_true]

theorem matchParts_checks (ps : List Part) (path : List Char) :
    matchParts (Part.lit '/' :: Part.lit 'c' :: Part.lit 'h' :: Part.lit 'e' :: Part.lit 'c'
        :: Part.lit 'k' :: Part.lit 's' :: ps)
      ('/' :: 'c' :: 'h' :: 'e' :: 'c' :: 'k' :: 's' :: path) = matchParts ps path := by
  simp only [matchParts, if_true]

/-- A POST to `/checks/E/cancel`, for an email `E` that is not empty and has
no slash, is matched by the route `check_cancel`, which binds `email` to `E`. -/
theorem match_cancel_route (E body : String) (vars : List (String × String))
    (hne : E.data ≠ []) (hslash : '/' ∉ E.data) :
    matchRoutes Router
        { Method := "POST", Path := "/checks/" ++ E ++ "/cancel", Body := body, Vars := vars }
        false
      = RouteMatch.matched
          { tpl := "/checks/{email}/cancel", handler := Handler.handleCheckCancel,
            methods := some ["POST"], name := "check_cancel" } [("email", E)] := by
  have hp : ("/checks/" ++ E ++ "/cancel").data
      = '/' :: 'c' :: 'h' :: 'e' :: 'c' :: 'k' :: 's' :: '/' ::
          (E.data ++ '/' :: ['c', 'a', 'n', 'c', 'e', 'l']) := by
    simp [String.data_append]
  have ht1 : parseTemplate "/checks".data none
      = [Part.lit '/', Part.lit 'c', Part.lit 'h', Part.lit 'e', Part.lit 'c', Part.lit 'k',
          Part.lit 's'] := by rfl
  have ht3 : parseTemplate "/checks/{email}".data none
      = [Part.lit '/', Part.lit 'c', Part.lit 'h', Part.lit 'e', Part.lit 'c', Part.lit 'k',
          Part.lit 's', Part.lit '/', Part.var "email"] := by rfl
  have ht4 : parseTemplate "/checks/{email}/cancel".data none
      = [Part.lit '/', Part.lit 'c', Part.lit 'h', Part.lit 'e', Part.lit 'c', Part.lit 'k',
          Part.lit 's', Part.lit '/', Part.var "email", Part.lit '/', Part.lit 'c', Part.lit 'a',
          Part.lit 'n', Part.lit 'c', Part.lit 'e', Part.lit 'l'] := by rfl
  have m1 : matchParts (parseTemplate "/checks".data none)
      ("/checks/" ++ E ++ "/cancel").data = none := by
    rw [hp, ht1, matchParts_checks]
    rfl
  have m3 : matchParts (parseTemplate "/checks/{email}".data none)
      ("/checks/" ++ E ++ "/cancel").data = none := by
    rw [hp, ht3, matchParts_checks]
    rw [matchParts_lit, matchParts_var _ _ _ _ hne hslash]
    rfl
  have m4 : matchParts (parseTemplate "/checks/{email}/cancel".data none)
      ("/checks/" ++ E ++ "/cancel").data = some [("email", E)] := by
    rw [hp, ht4, matchParts_checks]
    rw [matchParts_lit, matchParts_var _ _ _ _ hne hslash]
    rfl
  simp only [Router, matchRoutes, m1, m3, m4]
  rfl

theorem handleCheckCancel_calls {M : Model} (env : Env M) (r : Request) :
    (handleCheckCancel env r {}).calls = [Call.cancelWorkflow (r.Var "id")] := by
  unfold handleCheckCancel cancelWorkflow
  cases env.NewClient with
  | some e => simp [Exchange.Error]
  | none => cases h : env.CancelWorkflow (r.Var "id") <;> simp [h, Exchange.Error]

/-- On a path in canonical form `ServeHTTP` runs the handler of the route
that matches. -/
theorem ServeHTTP_canonical {M : Model} (env : Env M) (routes : List Route) (req : Request)
    (h : cleanPath req.Path = req.Path) :
    ServeHTTP env routes req =
      match matchRoutes routes req false with
      | RouteMatch.matched rt vars => rt.handler.run env { req with Vars := vars } {}
      | RouteMatch.methodMismatch => Exchange.Error {} "" 405
      | RouteMatch.notFound => Exchange.Error {} "404 page not found" 404 := by
  unfold ServeHTTP
  rw [if_neg (not_not.mpr h)]

theorem splitSlash_segment (seg rest cur : List Char) (h : '/' ∉ seg) :
    splitSlash (seg ++ '/' :: rest) cur = (cur ++ seg) :: splitSlash rest [] := by
  induction seg generalizing cur with
  | nil => simp [splitSlash]
  | cons c cs ih =>
    have hc : c ≠ '/' := fun e => h (by simp [e])
    have hcs : '/' ∉ cs := fun e => h (by simp [e])
    rw [List.cons_append, splitSlash, if_neg hc, ih _ hcs]
    simp

/-- The path `/checks/E/cancel` is in canonical form when the email `E` is
not empty, has no slash and is neither `.` nor `..`. -/
theorem cleanPath_cancel (E : String) (hne : E.data ≠ []) (hslash : '/' ∉ E.data)
    (hdot : E.data ≠ ['.']) (hdots : E.data ≠ ['.', '.']) :
    cleanPath ("/checks/" ++ E ++ "/cancel") = "/checks/" ++ E ++ "/cancel" := by
  have hp : ("/checks/" ++ E ++ "/cancel").data
      = '/' :: 'c' :: 'h' :: 'e' :: 'c' :: 'k' :: 's' :: '/' ::
          (E.data ++ '/' :: ['c', 'a', 'n', 'c', 'e', 'l']) := by
    simp [String.data_append]
  have hs : splitSlash ('/' :: 'c' :: 'h' :: 'e' :: 'c' :: 'k' :: 's' :: '/' ::
        (E.data ++ '/' :: ['c', 'a', 'n', 'c', 'e', 'l'])) []
      = [[], ['c', 'h', 'e', 'c', 'k', 's'], E.data, ['c', 'a', 'n', 'c', 'e', 'l']] := by
    have h1 := splitSlash_segment [] ('c' :: 'h' :: 'e' :: 'c' :: 'k' :: 's' :: '/' ::
      (E.data ++ '/' :: ['c', 'a', 'n', 'c', 'e', 'l'])) [] (by simp)
    have h2 := splitSlash_segment ['c', 'h', 'e', 'c', 'k', 's']
      (E.data ++ '/' :: ['c', 'a', 'n', 'c', 'e', 'l']) [] (by decide)
    have h3 := splitSlash_segment E.data ['c', 'a', 'n', 'c', 'e', 'l'] [] hslash
    simp only [List.nil_append, List.cons_append] at h1 h2 h3
    rw [h1, h2, h3]
    rfl
  have hl : ('/' :: 'c' :: 'h' :: 'e' :: 'c' :: 'k' :: 's' :: '/' ::
        (E.data ++ '/' :: ['c', 'a', 'n', 'c', 'e', 'l'])).getLast? = some 'l' := by
    have e : '/' :: 'c' :: 'h' :: 'e' :: 'c' :: 'k' :: 's' :: '/' ::
          (E.data ++ '/' :: ['c', 'a', 'n', 'c', 'e', 'l'])
        = ('/' :: 'c' :: 'h' :: 'e' :: 'c' :: 'k' :: 's' :: '/' ::
          (E.data ++ '/' :: ['c', 'a', 'n', 'c', 'e'])) ++ ['l'] := by simp
    rw [e]
    exact List.getLast?_concat _
  apply String.ext
  unfold cleanPath
  rw [hp]
  simp only [List.head?_cons, if_true, pathClean, hs, hl]
  simp [cleanElements, hne, hdot, hdots, joinRooted]

/-- Whatever the email in the path (not empty, without slash, neither `.`
nor `..`), the cancel handler reached through the router calls
`cancelWorkflow` once, with the empty workflow ID. -/
theorem cancel_route_ignores_email {M : Model} (env : Env M) (E body : String)
    (hne : E.data ≠ []) (hslash : '/' ∉ E.data)
    (hdot : E.data ≠ ['.']) (hdots : E.data ≠ ['.', '.']) :
    (ServeHTTP env Router
        { Method := "POST", Path := "/checks/" ++ E ++ "/cancel", Body := body }).calls
      = [Call.cancelWorkflow ""] := by
  rw [ServeHTTP_canonical _ _ _ (cleanPath_cancel E hne hslash hdot hdots),
    match_cancel_route E body [] hne hslash]
  simp only [Handler.run]
  rw [handleCheckCancel_calls]
  rfl

/-- A POST to `/checks/./cancel` is answered by a redirect to `/checks/cancel`
and runs no handler. -/
theorem dot_cancel_redirects {M : Model} (env : Env M) :
    (ServeHTTP env Router dotCancelRequest).statusCode = 301 ∧
    (ServeHTTP env Router dotCancelRequest).calls = [] ∧
    (ServeHTTP env Router dotCancelRequest).w.header = [("Location", "/checks/cancel")] := by
  refine ⟨rfl, rfl, rfl⟩

/-- C1: a POST to `/checks` is matched by the first route, `checks_list`,
which accepts every method: the handler selected is `handleCheckList`, not
`handleCheckCreate`, whatever the body. -/
theorem post_checks_selects_handleCheckList (body : String) :
    selectedHandler Router { Method := "POST", Path := "/checks", Body := body }
      = some Handler.handleCheckList ∧
    selectedRoute Router { Method := "POST", Path := "/checks", Body := body }
      = some "checks_list" ∧
    selectedHandler Router { Method := "POST", Path := "/checks", Body := body }
      ≠ some Handler.handleCheckCreate := by
  simp [selectedHandler, selectedRoute, match_post_checks]

/-- C3: a POST to `/checks/a@x/cancel` served through `Router` reaches
`handleCheckCancel`, which calls `cancelWorkflow` once with the empty
workflow ID, not with `BackgroundCheck-a@x`: the handler reads the variable
`id`, the route binds `email`, and no case prefix is applied. -/
theorem cancel_route_calls_empty_id {M : Model} (env : Env M) :
    (ServeHTTP env Router cancelRequest).calls = [Call.cancelWorkflow ""] ∧
    (Call.cancelWorkflow "" : Call M) ≠ Call.cancelWorkflow (BackgroundCheckWorkflowID "a@x") ∧
    BackgroundCheckWorkflowID "a@x" = "BackgroundCheck-a@x" := by
  refine ⟨?_, ?_, rfl⟩
  · have hm : matchRoutes Router cancelRequest false
        = RouteMatch.matched
            { tpl := "/checks/{email}/cancel", handler := Handler.handleCheckCancel,
              methods := some ["POST"], name := "check_cancel" } [("email", "a@x")] := by
      rfl
    rw [ServeHTTP_canonical env Router cancelRequest rfl, hm]
    simp only [Handler.run]
    rw [handleCheckCancel_calls]
    rfl
  · intro h
    exact absurd (Call.cancelWorkflow.inj h) (by decide)

/-! ### Handlers -/

theorem handleCheckConsent_valid {M : Model} (env : Env M) (r : Request) (token : List Nat)
    (c : ConsentResult) (htok : DecodeString (r.Var "token") = some token)
    (hbody : env.decodeConsent r.Body = Except.ok c) :
    (handleCheckConsent env r {}).calls
        = [Call.completeActivity token (ActivityResult.consent c) none] ∧
    match (completeActivity env token (ActivityResult.consent c) none {}).1 with
    | Except.ok _ => (handleCheckConsent env r {}).statusCode = 200
    | Except.error _ => (handleCheckConsent env r {}).statusCode = 500 := by
  unfold handleCheckConsent
  simp only [htok, hbody]
  unfold completeActivity
  cases env.NewClient with
  | some e => exact ⟨rfl, rfl⟩
  | none =>
    cases h2 : env.CompleteActivity token (ActivityResult.consent c) none with
    | error e => simp only [h2]; exact ⟨rfl, rfl⟩
    | ok u => simp only [h2]; exact ⟨rfl, rfl⟩

/-- On a token that decodes, `handleCheckDecline` makes one call of
`completeActivity` with the decoded token and `Consent: false`, and answers
200 when it succeeds and 500 when it fails. -/
theorem handleCheckDecline_valid {M : Model} (env : Env M) (r : Request) (token : List Nat)
    (htok : DecodeString (r.Var "token") = some token) :
    (handleCheckDecline env r {}).calls
        = [Call.completeActivity token (ActivityResult.consent { Consent := false }) none] ∧
    match (completeActivity env token (ActivityResult.consent { Consent := false }) none {}).1 with
    | Except.ok _ => (handleCheckDecline env r {}).statusCode = 200
    | Except.error _ => (handleCheckDecline env r {}).statusCode = 500 := by
  unfold handleCheckDecline
  simp only [htok]
  unfold completeActivity
  cases env.NewClient with
  | some e => exact ⟨rfl, rfl⟩
  | none =>
    cases h2 : env.CompleteActivity token (ActivityResult.consent { Consent := false }) none with
    | error e => simp only [h2]; exact ⟨rfl, rfl⟩
    | ok u => simp only [h2]; exact ⟨rfl, rfl⟩

/-- On a token that decodes, `handleCheckDecline` does what `handleCheckConsent`
does on a body that decodes to `Consent: false`. -/
theorem decline_eq_consent_of_valid {M : Model} (env : Env M) (r : Request) (token : List Nat)
    (x : Exchange M) (htok : DecodeString (r.Var "token") = some token)
    (hbody : env.decodeConsent r.Body = Except.ok { Consent := false }) :
    handleCheckDecline env r x = handleCheckConsent env r x := by
  unfold handleCheckDecline handleCheckConsent
  simp only [htok, hbody]

/-- On a token that does not decode, no handler calls `completeActivity`;
`handleCheckDecline` answers 400, `handleCheckConsent` and
`handleSaveSearchResult` answer 500. -/
theorem malformed_token_responses {M : Model} (env : Env M) (r : Request)
    (htok : DecodeString (r.Var "token") = none) :
    ((handleCheckConsent env r {}).statusCode = 500 ∧ (handleCheckConsent env r {}).calls = []) ∧
    ((handleCheckDecline env r {}).statusCode = 400 ∧ (handleCheckDecline env r {}).calls = []) ∧
    ((handleSaveSearchResult env r {}).statusCode = 500 ∧
      (handleSaveSearchResult env r {}).calls = []) := by
  unfold handleCheckConsent handleCheckDecline handleSaveSearchResult
  simp only [htok]
  exact ⟨⟨rfl, rfl⟩, ⟨rfl, rfl⟩, ⟨rfl, rfl⟩⟩

theorem handleCheckStatus_cases {M : Model} (env : Env M) (r : Request) :
    (handleCheckStatus env r {}).calls
      = [Call.queryWorkflow (BackgroundCheckWorkflowID (r.Var "email"))
          env.queryBackgroundCheckStatus] ∧
    match (queryWorkflow env (BackgroundCheckWorkflowID (r.Var "email"))
        env.queryBackgroundCheckStatus {}).1 with
    | Except.error _ => (handleCheckStatus env r {}).statusCode = 500
    | Except.ok v =>
      match env.getStatus v with
      | Except.error _ => (handleCheckStatus env r {}).statusCode = 500
      | Except.ok result =>
        (handleCheckStatus env r {}).statusCode = 200 ∧
        (handleCheckStatus env r {}).w.body = env.encodeStatus result ∧
        (handleCheckStatus env r {}).w.header = [("Content-Type", "application/json")] := by
  unfold handleCheckStatus queryWorkflow
  cases env.NewClient with
  | some e => exact ⟨rfl, rfl⟩
  | none =>
    cases h2 : env.QueryWorkflow (BackgroundCheckWorkflowID (r.Var "email"))
        env.queryBackgroundCheckStatus with
    | error e => simp only [h2]; exact ⟨rfl, rfl⟩
    | ok v =>
      simp only [h2]
      cases h3 : env.getStatus v with
      | error e => exact ⟨rfl, rfl⟩
      | ok st =>
        refine ⟨rfl, rfl, ?_, rfl⟩
        simp [Exchange.Write, Exchange.SetHeader, ResponseWriter.Write, ResponseWriter.SetHeader,
          ResponseWriter.WriteHeader]

theorem handleCheckCancel_cases {M : Model} (env : Env M) (r : Request) :
    match (cancelWorkflow env (r.Var "id") {}).1 with
    | Except.error _ => (handleCheckCancel env r {}).statusCode = 500
    | Except.ok _ => (handleCheckCancel env r {}).statusCode = 200 := by
  unfold handleCheckCancel cancelWorkflow
  cases env.NewClient with
  | some e => rfl
  | none =>
    cases h2 : env.CancelWorkflow (r.Var "id") with
    | error e => simp only [h2]; rfl
    | ok u => simp only [h2]; rfl

/-- The function `executeWorkflow` returns no error when the client connects
and the server answers that a workflow with this ID is already running,
whatever the ID the caller puts in the options. -/
theorem executeWorkflow_already_started {M : Model} (env : Env M) (id : String)
    (input : BackgroundCheckInput) (x : Exchange M) (hc : env.NewClient = none)
    (hs : env.StartWorkflowExecution id TaskQueue input = StartReply.alreadyStarted) :
    (executeWorkflow env { ID := id } input x).1 = Except.ok () := by
  simp only [executeWorkflow, hc, Env.ExecuteWorkflow, hs]
  rfl

/-- C2 (as amended): when the body does not decode as a
`BackgroundCheckInput`, `handleCheckCreate` answers 400 and does not call
`executeWorkflow`; otherwise it calls `executeWorkflow` once with the workflow
ID `BackgroundCheckWorkflowID input.Email`, and answers 201 when the call
returns no error and 500 when it returns one; a case that already exists
under that ID is no error of the call, and the answer is 201. -/
theorem handleCheckCreate_status_mapping {M : Model} (env : Env M) (r : Request) :
    match env.decodeInput r.Body with
    | Except.error _ =>
      (handleCheckCreate env r {}).statusCode = 400 ∧ (handleCheckCreate env r {}).calls = []
    | Except.ok input =>
      (handleCheckCreate env r {}).calls
        = [Call.executeWorkflow { ID := BackgroundCheckWorkflowID input.Email } input] ∧
      (match (executeWorkflow env { ID := BackgroundCheckWorkflowID input.Email } input {}).1 with
        | Except.ok _ => (handleCheckCreate env r {}).statusCode = 201
        | Except.error _ => (handleCheckCreate env r {}).statusCode = 500) ∧
      (env.NewClient = none →
        env.StartWorkflowExecution (BackgroundCheckWorkflowID input.Email) TaskQueue input
          = StartReply.alreadyStarted →
        (handleCheckCreate env r {}).statusCode = 201) := by
  cases h : env.decodeInput r.Body with
  | error err =>
    simp only [handleCheckCreate, h]
    exact ⟨rfl, rfl⟩
  | ok input =>
    have hcalls : (executeWorkflow env { ID := BackgroundCheckWorkflowID input.Email } input
        {}).2 = { calls := [Call.executeWorkflow { ID := BackgroundCheckWorkflowID input.Email }
          input] } := by
      unfold executeWorkflow
      cases env.NewClient <;> rfl
    have hmain : (handleCheckCreate env r {}).calls
          = [Call.executeWorkflow { ID := BackgroundCheckWorkflowID input.Email } input] ∧
        match (executeWorkflow env { ID := BackgroundCheckWorkflowID input.Email } input {}).1 with
        | Except.ok _ => (handleCheckCreate env r {}).statusCode = 201
        | Except.error _ => (handleCheckCreate env r {}).statusCode = 500 := by
      simp only [handleCheckCreate, h]
      cases hx : executeWorkflow env { ID := BackgroundCheckWorkflowID input.Email } input {} with
      | mk res x1 =>
        rw [hx] at hcalls
        simp only at hcalls
        subst hcalls
        cases res with
        | error e => exact ⟨rfl, rfl⟩
        | ok u => exact ⟨rfl, rfl⟩
    refine ⟨hmain.1, hmain.2, ?_⟩
    intro hc hs
    have h2 := hmain.2
    rw [executeWorkflow_already_started env _ input {} hc hs] at h2
    exact h2

/-- C2, witness: on the body of `createRequest` the candidate is `a@x`; with
a server on which `BackgroundCheck-a@x` is running, the one call made starts
`BackgroundCheck-a@x` and the answer is 201; with a server that fails, the
answer is 500. -/
theorem handleCheckCreate_status_mapping_witness :
    (handleCheckCreate (runningEnv ["BackgroundCheck-a@x"]) createRequest {}).calls
      = [Call.executeWorkflow { ID := "BackgroundCheck-a@x" }
          { Email := "a@x", Tier := "standard", Package := "base" }] ∧
    (handleCheckCreate (runningEnv ["BackgroundCheck-a@x"]) createRequest {}).statusCode = 201 ∧
    (handleCheckCreate (sampleEnv (some { kind := ErrorKind.transient, msg := "unavailable" }))
        createRequest {}).statusCode = 500 :=
  ⟨(handleCheckCreate_status_mapping (runningEnv ["BackgroundCheck-a@x"]) createRequest).1,
    (handleCheckCreate_status_mapping (runningEnv ["BackgroundCheck-a@x"]) createRequest).2.2
      rfl rfl,
    (handleCheckCreate_status_mapping
      (sampleEnv (some { kind := ErrorKind.transient, msg := "unavailable" })) createRequest).2.1⟩

/-- C2, counterexample: the body decodes to the input of `a@x`, a case
`BackgroundCheck-a@x` already exists on the server, the adapter call returns
no error, and `handleCheckCreate` answers 201, not 409. -/
theorem handleCheckCreate_duplicate_is_201 :
    (runningEnv ["BackgroundCheck-a@x"]).decodeInput createRequest.Body
      = Except.ok { Email := "a@x", Tier := "standard", Package := "base" } ∧
    (runningEnv ["BackgroundCheck-a@x"]).StartWorkflowExecution
        (BackgroundCheckWorkflowID "a@x") TaskQueue
        { Email := "a@x", Tier := "standard", Package := "base" }
      = StartReply.alreadyStarted ∧
    (executeWorkflow (runningEnv ["BackgroundCheck-a@x"])
        { ID := BackgroundCheckWorkflowID "a@x" }
        { Email := "a@x", Tier := "standard", Package := "base" } {}).1
      = Except.ok () ∧
    (handleCheckCreate (runningEnv ["BackgroundCheck-a@x"]) createRequest {}).statusCode = 201 ∧
    (handleCheckCreate (runningEnv ["BackgroundCheck-a@x"]) createRequest {}).statusCode
      ≠ 409 := by
  refine ⟨rfl, rfl, rfl, rfl, by decide⟩

/-- C5: when the `token` path variable is the standard padded base64
encoding of the bytes `T` and the body decodes to the `ConsentResult` `c`,
`handleCheckConsent` calls `completeActivity` exactly once, with the token
`T`, the result `c` and no activity error. -/
theorem handleCheckConsent_token_round_trip {M : Model} (env : Env M) (r : Request)
    (T : List Nat) (c : ConsentResult) (hT : ∀ b ∈ T, b < 256)
    (htok : r.Var "token" = EncodeToString T)
    (hbody : env.decodeConsent r.Body = Except.ok c) :
    (handleCheckConsent env r {}).calls
      = [Call.completeActivity T (ActivityResult.consent c) none] :=
  (handleCheckConsent_valid env r T c
    (by rw [htok]; exact DecodeString_EncodeToString T hT) hbody).1

/-- C5, witness: the token `AQIDBA==` encodes the bytes 1, 2, 3, 4, the body
consents, and the one call made carries these bytes and this result. -/
theorem handleCheckConsent_token_round_trip_witness :
    (∀ b ∈ [1, 2, 3, 4], b < 256) ∧
    consentRequest.Var "token" = EncodeToString [1, 2, 3, 4] ∧
    (sampleEnv none).decodeConsent consentRequest.Body = Except.ok { Consent := true } ∧
    (handleCheckConsent (sampleEnv none) consentRequest {}).calls
      = [Call.completeActivity [1, 2, 3, 4] (ActivityResult.consent { Consent := true }) none] :=
  ⟨by decide, rfl, rfl,
    handleCheckConsent_token_round_trip (sampleEnv none) consentRequest [1, 2, 3, 4]
      { Consent := true } (by decide) rfl rfl⟩

/-- C6: on the malformed token `!`, served through `Router`, no handler calls
`completeActivity`; the decline handler answers 400, the consent handler and
the search handler answer 500, whatever the environment. -/
theorem malformed_token_is_500_on_consent_and_search {M : Model} (env : Env M) :
    DecodeString "!" = none ∧
    ((ServeHTTP env Router badConsentRequest).statusCode = 500 ∧
      (ServeHTTP env Router badConsentRequest).calls = []) ∧
    ((ServeHTTP env Router badDeclineRequest).statusCode = 400 ∧
      (ServeHTTP env Router badDeclineRequest).calls = []) ∧
    ((ServeHTTP env Router badSearchRequest).statusCode = 500 ∧
      (ServeHTTP env Router badSearchRequest).calls = []) := by
  have hc : matchRoutes Router badConsentRequest false
      = RouteMatch.matched
          { tpl := "/checks/{token}/consent", handler := Handler.handleCheckConsent,
            methods := some ["POST"], name := "check_consent" } [("token", "!")] := by rfl
  have hd : matchRoutes Router badDeclineRequest false
      = RouteMatch.matched
          { tpl := "/checks/{token}/decline", handler := Handler.handleCheckDecline,
            methods := some ["POST"], name := "check_decline" } [("token", "!")] := by rfl
  have hs : matchRoutes Router badSearchRequest false
      = RouteMatch.matched
          { tpl := "/checks/{token}/search", handler := Handler.handleSaveSearchResult,
            methods := some ["POST"], name := "research_save" } [("token", "!")] := by rfl
  rw [ServeHTTP_canonical env Router badConsentRequest rfl,
    ServeHTTP_canonical env Router badDeclineRequest rfl,
    ServeHTTP_canonical env Router badSearchRequest rfl, hc, hd, hs]
  simp only [Handler.run]
  exact ⟨rfl,
    (malformed_token_responses env { badConsentRequest with Vars := [("token", "!")] } rfl).1,
    (malformed_token_responses env { badDeclineRequest with Vars := [("token", "!")] } rfl).2.1,
    (malformed_token_responses env { badSearchRequest with Vars := [("token", "!")] } rfl).2.2⟩

/-- C7 (as amended): when the token is valid base64 and the body decodes to a
`ConsentResult`, `handleCheckConsent` answers 200 when `completeActivity`
succeeds and 500 when it fails, an unknown or consumed token included. -/
theorem handleCheckConsent_outcome_status {M : Model} (env : Env M) (r : Request)
    (token : List Nat) (c : ConsentResult)
    (htok : DecodeString (r.Var "token") = some token)
    (hbody : env.decodeConsent r.Body = Except.ok c) :
    match (completeActivity env token (ActivityResult.consent c) none {}).1 with
    | Except.ok _ => (handleCheckConsent env r {}).statusCode = 200
    | Except.error _ => (handleCheckConsent env r {}).statusCode = 500 :=
  (handleCheckConsent_valid env r token c htok hbody).2

/-- C7, witness: with the token `AQIDBA==` and a consenting body, the
answer is 200 when the runtime accepts the completion and 500 when it
reports the token unknown. -/
theorem handleCheckConsent_outcome_status_witness :
    DecodeString (consentRequest.Var "token") = some [1, 2, 3, 4] ∧
    (sampleEnv none).decodeConsent consentRequest.Body = Except.ok { Consent := true } ∧
    (handleCheckConsent (sampleEnv none) consentRequest {}).statusCode = 200 ∧
    (handleCheckConsent (sampleEnv (some unknownTokenError)) consentRequest {}).statusCode
      = 500 :=
  ⟨rfl, rfl,
    handleCheckConsent_outcome_status (sampleEnv none) consentRequest [1, 2, 3, 4]
      { Consent := true } rfl rfl,
    handleCheckConsent_outcome_status (sampleEnv (some unknownTokenError)) consentRequest
      [1, 2, 3, 4] { Consent := true } rfl rfl⟩

/-- C7, counterexample: with a valid token and a body that decodes,
`handleCheckConsent` answers 200, not 204, when `completeActivity` succeeds,
and 500, not 410, when the adapter reports the token unknown. -/
theorem handleCheckConsent_not_204_nor_410 :
    DecodeString (consentRequest.Var "token") = some [1, 2, 3, 4] ∧
    (sampleEnv none).decodeConsent consentRequest.Body = Except.ok { Consent := true } ∧
    (completeActivity (sampleEnv none) [1, 2, 3, 4] (ActivityResult.consent { Consent := true })
        none {}).1 = Except.ok () ∧
    (handleCheckConsent (sampleEnv none) consentRequest {}).statusCode ≠ 204 ∧
    (completeActivity (sampleEnv (some unknownTokenError)) [1, 2, 3, 4]
        (ActivityResult.consent { Consent := true }) none {}).1 = Except.error unknownTokenError ∧
    unknownTokenError.kind = ErrorKind.unknownToken ∧
    (handleCheckConsent (sampleEnv (some unknownTokenError)) consentRequest {}).statusCode
      ≠ 410 := by
  refine ⟨rfl, rfl, rfl, by decide, rfl, rfl, by decide⟩

/-- C8: on the malformed token `!` and a body that decodes to
`Consent: false`, neither handler calls `completeActivity`, and
`handleCheckDecline` answers 400 where `handleCheckConsent` answers 500. -/
theorem decline_differs_from_consent_on_malformed_token :
    DecodeString "!" = none ∧
    (sampleEnv none).decodeConsent declineBody = Except.ok { Consent := false } ∧
    (handleCheckDecline (sampleEnv none)
        { Method := "POST", Path := "/checks/!/decline", Body := declineBody,
          Vars := [("token", "!")] } {}).statusCode = 400 ∧
    (handleCheckConsent (sampleEnv none)
        { Method := "POST", Path := "/checks/!/consent", Body := declineBody,
          Vars := [("token", "!")] } {}).statusCode = 500 ∧
    (handleCheckDecline (sampleEnv none)
        { Method := "POST", Path := "/checks/!/decline", Body := declineBody,
          Vars := [("token", "!")] } {}).calls = [] ∧
    (handleCheckConsent (sampleEnv none)
        { Method := "POST", Path := "/checks/!/consent", Body := declineBody,
          Vars := [("token", "!")] } {}).calls = [] := by
  refine ⟨rfl, rfl, rfl, rfl, rfl, rfl⟩

/-- C9 (as amended): when the adapter reports NotFound for the workflow
`BackgroundCheck-E` of the email `E` in the path, `handleCheckStatus` answers
500; when the `cancelWorkflow` call that `handleCheckCancel` makes reports
NotFound, `handleCheckCancel` answers 500; when the status query succeeds and
decodes, `handleCheckStatus` answers 200 with the JSON encoding of the
decoded status. -/
theorem unknown_case_status_codes {M : Model} (env : Env M) (r : Request) :
    (∀ err : GoError,
      (queryWorkflow env (BackgroundCheckWorkflowID (r.Var "email"))
        env.queryBackgroundCheckStatus {}).1 = Except.error err →
      err.kind = ErrorKind.notFound → (handleCheckStatus env r {}).statusCode = 500) ∧
    (∀ (wid : String) (err : GoError),
      (handleCheckCancel env r {}).calls = [Call.cancelWorkflow wid] →
      (cancelWorkflow env wid {}).1 = Except.error err →
      err.kind = ErrorKind.notFound → (handleCheckCancel env r {}).statusCode = 500) ∧
    (∀ (v : M.EncodedValue) (st : M.BackgroundCheckStatus),
      (queryWorkflow env (BackgroundCheckWorkflowID (r.Var "email"))
        env.queryBackgroundCheckStatus {}).1 = Except.ok v →
      env.getStatus v = Except.ok st →
      (handleCheckStatus env r {}).statusCode = 200 ∧
      (handleCheckStatus env r {}).w.body = env.encodeStatus st) := by
  refine ⟨?_, ?_, ?_⟩
  · intro err hq _
    have h := (handleCheckStatus_cases env r).2
    rw [hq] at h
    exact h
  · intro wid err hcalls hc _
    rw [handleCheckCancel_calls] at hcalls
    have hw : r.Var "id" = wid := Call.cancelWorkflow.inj (List.cons.inj hcalls).1
    have h := handleCheckCancel_cases env r
    rw [hw, hc] at h
    exact h
  · intro v st hq hg
    have h := (handleCheckStatus_cases env r).2
    rw [hq] at h
    simp only [hg] at h
    exact ⟨h.1, h.2.1⟩

/-- C9, witness: for the case of `a@x`, a runtime that reports NotFound makes
both handlers answer 500, and a runtime that answers the query makes
`handleCheckStatus` answer 200 with the encoded status. -/
theorem unknown_case_status_codes_witness :
    (handleCheckStatus (sampleEnv (some notFoundError))
        { Method := "GET", Path := "/checks/a@x", Vars := [("email", "a@x")] } {}).statusCode
      = 500 ∧
    (handleCheckCancel (sampleEnv (some notFoundError))
        { Method := "POST", Path := "/checks/a@x/cancel", Vars := [("email", "a@x")] }
        {}).statusCode = 500 ∧
    ((handleCheckStatus (sampleEnv none)
        { Method := "GET", Path := "/checks/a@x", Vars := [("email", "a@x")] } {}).statusCode
      = 200 ∧
    (handleCheckStatus (sampleEnv none)
        { Method := "GET", Path := "/checks/a@x", Vars := [("email", "a@x")] } {}).w.body
      = (sampleEnv none).encodeStatus "status of BackgroundCheck-a@x") :=
  ⟨(unknown_case_status_codes (sampleEnv (some notFoundError))
      { Method := "GET", Path := "/checks/a@x", Vars := [("email", "a@x")] }).1
      notFoundError rfl rfl,
    (unknown_case_status_codes (sampleEnv (some notFoundError))
      { Method := "POST", Path := "/checks/a@x/cancel", Vars := [("email", "a@x")] }).2.1
      "" notFoundError rfl rfl rfl,
    (unknown_case_status_codes (sampleEnv none)
      { Method := "GET", Path := "/checks/a@x", Vars := [("email", "a@x")] }).2.2
      "status of BackgroundCheck-a@x" "status of BackgroundCheck-a@x" rfl rfl⟩

/-- C9, counterexample: the adapter reports NotFound for the workflow
`BackgroundCheck-a@x`, and a GET of `/checks/a@x` served through `Router`
is answered 500, not 404. -/
theorem handleCheckStatus_not_found_is_500 :
    (queryWorkflow (sampleEnv (some notFoundError)) (BackgroundCheckWorkflowID "a@x")
        (sampleEnv (some notFoundError)).queryBackgroundCheckStatus {}).1
      = Except.error notFoundError ∧
    notFoundError.kind = ErrorKind.notFound ∧
    (ServeHTTP (sampleEnv (some notFoundError)) Router statusRequest).calls
      = [Call.queryWorkflow "BackgroundCheck-a@x" "background-check-status"] ∧
    (ServeHTTP (sampleEnv (some notFoundError)) Router statusRequest).statusCode = 500 ∧
    (ServeHTTP (sampleEnv (some notFoundError)) Router statusRequest).statusCode ≠ 404 := by
  refine ⟨rfl, rfl, rfl, rfl, by decide⟩

end BackgroundChecks
